import Mathlib

/-!
Shallow embedding of the record-matching core of `vs_library`
(`src/vs_library/tools/pandas_extension.py`).

Modelling conventions:
* A pandas DataFrame after `astype(str).replace('nan', '')` holds only
  strings, so a `Table` is a header (list of column names) together with
  rows of string cells.  A missing cell or column reads as `""`; the
  claims only exercise columns that exist.
* Python floats are modelled by `ℚ`.  Python's `round(x, 2)` is modelled
  by exact decimal rounding to 2 places (`round2`); the half-even versus
  half-up tie rule is immaterial to every property proved here.
* The fuzzy scorer (`fuzz.WRatio` via `process.extract`) is an external
  library; it is an injected parameter `sim : String → String → ℚ`.
* `defaultdict` accumulators are modelled as association lists.  The
  insertion order of `match_scores` keys in the Python code follows the
  score-sorted output of `process.extract`; here keys appear in
  reference-row order.  No property below depends on that order.
-/

namespace VsLib

/-- A string table: named columns and rows of string cells. -/
structure Table where
  header : List String
  rows : List (List String)
deriving Repr, DecidableEq

/-- Cell access `df.iloc[i][c]`: the cell of row `i` in column `c`
(`""` when the row or column does not exist). -/
def Table.cell (t : Table) (i : Nat) (c : String) : String :=
  match t.header.findIdx? (fun h => h == c) with
  | some j => (t.rows.getD i []).getD j ""
  | none => ""

/-- The column `df[c]` as a list of cell values, one per row. -/
def Table.colValues (t : Table) (c : String) : List String :=
  (List.range t.rows.length).map (fun i => t.cell i c)

/-- `df[c].nunique()`: number of distinct values in column `c`
(all cells are strings, so none are excluded as NaN). -/
def Table.nunique (t : Table) (c : String) : Nat :=
  (t.colValues c).dedup.length

/-- `adjusted_uniqueness(df, selected_cols)`: per-column distinct-value
ratio `nunique / len(df)`, normalised by the sum over the selected
columns.  Returned as a function on column names; the code only reads it
at selected columns. -/
def adjusted_uniqueness (t : Table) (selected_cols : List String) : String → ℚ :=
  let u : String → ℚ := fun c => (t.nunique c : ℚ) / (t.rows.length : ℚ)
  let total : ℚ := (selected_cols.map u).sum
  fun c => u c / total

/-- Python `round(x, 2)`: rounding to two decimal places. -/
def round2 (q : ℚ) : ℚ := ((round (q * 100) : ℤ) : ℚ) / 100

/-- `df.astype(str).replace('nan', '')`: cells equal to `"nan"` become
blank (cells are already strings in this model). -/
def normalizeCells (t : Table) : Table :=
  ⟨t.header, t.rows.map (fun r => r.map (fun s => if s == "nan" then "" else s))⟩

/-- The configuration and table state of a `PandasMatcher` instance.
`columns_to_match` is an insertion-ordered dict, modelled as an
association list; `column_threshold` is a `defaultdict(float)`. -/
structure PandasMatcher where
  df_to : Table
  df_from : Table
  column_threshold : String → ℚ
  columns_to_match : List (String × List String)
  columns_to_get : List String
  column_groups : List String
  required_threshold : ℚ
  cutoff : Bool

/-- The `df_from` setter: normalises and stores the new reference table,
empties `columns_to_get`, clears every `columns_to_match` value list and
then, for each reference column that is itself a mapping key, appends it
to that key's list. -/
def PandasMatcher.setDfFrom (st : PandasMatcher) (df : Table) : PandasMatcher :=
  let d := normalizeCells df
  { st with
    df_from := d
    columns_to_get := []
    columns_to_match :=
      st.columns_to_match.map (fun kv => (kv.1, d.header.filter (fun c => c == kv.1))) }

/-- The target columns with a non-empty list of mapped reference
columns; only these participate in scoring
(`[column for column in self.columns_to_match ... if ...]`). -/
def PandasMatcher.activeCols (st : PandasMatcher) : List (String × List String) :=
  st.columns_to_match.filter (fun kv => !kv.2.isEmpty)

/-- The names of the actively mapped target columns. -/
def PandasMatcher.activeNames (st : PandasMatcher) : List String :=
  st.activeCols.map Prod.fst

/-- The uniqueness weights `match` precomputes:
`adjusted_uniqueness(self.__df_to, columns_to_match)`. -/
def PandasMatcher.theUniq (st : PandasMatcher) : String → ℚ :=
  adjusted_uniqueness st.df_to st.activeNames

/-- `optimal_threshold`: the uniqueness-weighted sum of the per-column
thresholds over the actively mapped columns. -/
def PandasMatcher.theOptimal (st : PandasMatcher) : ℚ :=
  (st.activeNames.map (fun c => st.column_threshold c * st.theUniq c)).sum

/-- `__subset(row)`: positions of the reference rows whose value in
every group column equals the target row's value there. -/
def PandasMatcher.subsetIndices (st : PandasMatcher) (index_to : Nat) : List Nat :=
  (List.range st.df_from.rows.length).filter (fun i =>
    st.column_groups.all (fun g => st.df_from.cell i g == st.df_to.cell index_to g))

/-- The candidate pool actually scored by `_compute_score`: the group
subset, falling back to the whole reference table when the subset
selects no rows (`if query.empty: query = choices[column_to]`).  The
subset is the same for every column of one target row, so the fallback
is uniform across columns. -/
def PandasMatcher.poolIndices (st : PandasMatcher) (index_to : Nat) : List Nat :=
  let s := st.subsetIndices index_to
  if s.isEmpty then List.range st.df_from.rows.length else s

/-- `_choices()` evaluated at reference row `i`: the space-joined
concatenation of the mapped reference columns' cells. -/
def PandasMatcher.choiceStr (st : PandasMatcher) (columns_from : List String) (i : Nat) : String :=
  String.intercalate " " (columns_from.map (fun c => st.df_from.cell i c))

/-- The `score_cutoff` passed to `process.extract` for one column:
`0` when `cutoff` is off, else that column's threshold. -/
def PandasMatcher.columnCutoff (st : PandasMatcher) (c : String) : ℚ :=
  if st.cutoff then st.column_threshold c else 0

/-- `_compute_score`: the accumulated `match_scores` dict for target row
`index_to`, as an association list.  A pool index becomes a key when at
least one active column's fuzzy score reaches that column's cutoff; its
value is the sum of `score * uniqueness[column]` over those columns. -/
def PandasMatcher.matchScores (sim : String → String → ℚ) (st : PandasMatcher)
    (uniq : String → ℚ) (index_to : Nat) : List (Nat × ℚ) :=
  (st.poolIndices index_to).filterMap (fun i =>
    let contribs := st.activeCols.filterMap (fun kv =>
      let s := sim (st.df_to.cell index_to kv.1) (st.choiceStr kv.2 i)
      if st.columnCutoff kv.1 ≤ s then some (s * uniq kv.1) else none)
    if contribs.isEmpty then none else some (i, contribs.sum))

/-- Python `max` over a list of rationals (`0` on the empty list, which
the code never evaluates: see `filterHighest`). -/
def listMaxQ : List ℚ → ℚ
  | [] => 0
  | [x] => x
  | x :: y :: xs => max x (listMaxQ (y :: xs))

/-- `filter_highest`: the entries whose value equals the exact maximum
of the dict's values.  On an empty dict the Python comprehension returns
`{}` without evaluating `max`. -/
def filterHighest (ms : List (Nat × ℚ)) : List (Nat × ℚ) :=
  ms.filter (fun kv => kv.2 == listMaxQ (ms.map Prod.snd))

/-- `_top_matches`: among the maximum-score entries, those whose rounded
score reaches the rounded required threshold, each labelled `REVIEW`
when its (unrounded) score is strictly below the optimal threshold and
`MATCHED` otherwise. -/
def PandasMatcher.topMatches (st : PandasMatcher) (ms : List (Nat × ℚ))
    (optimal_threshold : ℚ) : List (Nat × String × ℚ) :=
  (filterHighest ms).filterMap (fun kv =>
    if round2 st.required_threshold ≤ round2 kv.2 then
      some (kv.1, if kv.2 < optimal_threshold then "REVIEW" else "MATCHED", kv.2)
    else none)

/-- One row of `df_matched`'s appended columns.  `row_index` records the
header-offset reference positions: `none` is the initial blank `''`, a
singleton list is the `int(index_from + 2)` of a unique match, a longer
list is the comma-joined AMBIGUOUS case (the joined decimal strings of
two lists coincide exactly when the lists do).  Copying of
`columns_to_get` values is not modelled; no claim concerns it. -/
structure MatchedRow where
  match_status : String
  row_index : Option (List Nat)
  match_score : Option ℚ
deriving Repr, DecidableEq

instance : Inhabited MatchedRow := ⟨⟨"", none, none⟩⟩

/-- The per-row classification of `match`'s loop body: a unique top
match records its position, score and status; several top matches give
`AMBIGUOUS` with all positions; none gives `UNMATCHED`. -/
def PandasMatcher.classifyRow (sim : String → String → ℚ) (st : PandasMatcher)
    (uniq : String → ℚ) (optimal_threshold : ℚ) (index_to : Nat) : MatchedRow :=
  let tm := st.topMatches (st.matchScores sim uniq index_to) optimal_threshold
  match tm with
  | [] => ⟨"UNMATCHED", none, none⟩
  | [(i, status, score)] => ⟨status, some [i + 2], some score⟩
  | _ => ⟨"AMBIGUOUS", some (tm.map (fun x => x.1 + 2)), none⟩

/-- All per-row classifications, in target-row order (the loop
`for index_to in range(0, len(self.__df_to))`). -/
def PandasMatcher.provisionalRows (sim : String → String → ℚ) (st : PandasMatcher) :
    List MatchedRow :=
  (List.range st.df_to.rows.length).map
    (st.classifyRow sim st.theUniq st.theOptimal)

/-- `get_column_dupes` applied to the `row_index` column: the positions
whose value is non-blank and occurs at least twice in the column
(`duplicated(keep=False)` then `dropna`). -/
def get_column_dupes (vals : List (Option (List Nat))) : List Nat :=
  (List.range vals.length).filter (fun i =>
    match vals.getD i none with
    | some v => decide (2 ≤ vals.count (some v))
    | none => false)

/-- The duplicate-resolution pass
(`df_matched.loc[dupe_index, 'match_status'] = "DUPLICATES"`). -/
def resolveDupes (rows : List MatchedRow) : List MatchedRow :=
  let vals := rows.map (fun r => r.row_index)
  let dupes := get_column_dupes vals
  (List.range rows.length).map (fun i =>
    let r := rows.getD i default
    if i ∈ dupes then { r with match_status := "DUPLICATES" } else r)

/-- The summary `m_info`, with the `%`-formatted strings modelled by
their numeric values: total match rate, average, highest and lowest
match score (with the code's `0` / `-1` fallbacks). -/
structure MatchInfo where
  total : ℚ
  avg : ℚ
  highest : ℚ
  lowest : ℚ
deriving Repr, DecidableEq

/-- Python `min` over a list of rationals (`0` on the empty list, which
the code never evaluates). -/
def listMinQ : List ℚ → ℚ
  | [] => 0
  | [x] => x
  | x :: y :: xs => min x (listMinQ (y :: xs))

/-- `PandasMatcher.match` (named `matchAll` here because `match` is
reserved in Lean): classify every target row, overwrite duplicated
unique claims with `DUPLICATES`, and compute the summary statistics.
`scores` collects the unique-match scores recorded during the loop,
before duplicate resolution; `m_stat` counts statuses after it. -/
def PandasMatcher.matchAll (sim : String → String → ℚ) (st : PandasMatcher) :
    List MatchedRow × MatchInfo :=
  let provisional := st.provisionalRows sim
  let scores := provisional.filterMap (fun r => r.match_score)
  let resolved := resolveDupes provisional
  let matchedCount := resolved.countP (fun r => r.match_status == "MATCHED")
  let info : MatchInfo :=
    { total := if 0 < matchedCount then
        round2 ((matchedCount : ℚ) / (st.df_to.rows.length : ℚ) * 100) else 0
      avg := if scores.isEmpty then 0 else round2 (scores.sum / (scores.length : ℚ))
      highest := if scores.isEmpty then -1 else round2 (listMaxQ scores)
      lowest := if scores.isEmpty then -1 else round2 (listMinQ scores) }
  (resolved, info)

/-! ### Concrete evaluation fixtures -/

/-- A stub fuzzy scorer: `100` against reference value `"x"`, else `50`. -/
def exSim : String → String → ℚ := fun _ b => if b == "x" then 100 else 50

/-- A stub fuzzy scorer that always returns `50` (below the default
required threshold of 75). -/
def exSimLow : String → String → ℚ := fun _ _ => 50

/-- A stub fuzzy scorer producing `90.004` against `"x"` and `90`
otherwise: two scores that agree after rounding to 2 decimals but are
not exactly equal. -/
def exSimTie : String → String → ℚ := fun _ b => if b == "x" then 22501 / 250 else 90

/-- A one-column matcher state: one target row `"x"`, two reference rows
`"x"` and `"y"`, the default thresholds and flags. -/
def exSt : PandasMatcher :=
  { df_to := ⟨["a"], [["x"]]⟩
    df_from := ⟨["a"], [["x"], ["y"]]⟩
    column_threshold := fun _ => 75
    columns_to_match := [("a", ["a"])]
    columns_to_get := []
    column_groups := []
    required_threshold := 75
    cutoff := false }

/-- Two identical target rows against a single reference row: both
resolve to the same reference position. -/
def exStDup : PandasMatcher :=
  { exSt with df_to := ⟨["a"], [["x"], ["x"]]⟩, df_from := ⟨["a"], [["x"]]⟩ }

/-- A state whose reference table has columns but no rows. -/
def exStEmptyFrom : PandasMatcher :=
  { exSt with df_from := ⟨["a"], []⟩ }

/-- A state whose target table has columns but no rows. -/
def exStEmptyTo : PandasMatcher :=
  { exSt with df_to := ⟨["a"], []⟩ }

/-- A state with a group column whose target value `"z"` appears in no
reference row, so the group restriction selects nothing. -/
def exStGroups : PandasMatcher :=
  { exSt with column_groups := ["a"], df_to := ⟨["a"], [["z"]]⟩ }

/-- A state holding a cross-name column link: target column `"name"`
mapped to reference column `"fullname"`. -/
def exStCross : PandasMatcher :=
  { exSt with columns_to_match := [("name", ["fullname"])] }

/-- The same mapping keys as `exStCross` with a different value list. -/
def exStCross2 : PandasMatcher :=
  { exSt with columns_to_match := [("name", ["other"])] }

/-- A reference table that does contain the column `"fullname"`. -/
def exDfNew : Table := ⟨["fullname"], [["Ann A"]]⟩

/-! ### Helper lemmas -/

lemma listMaxQ_mem : ∀ {l : List ℚ}, l ≠ [] → listMaxQ l ∈ l
  | [], h => absurd rfl h
  | [x], _ => by simp [listMaxQ]
  | x :: y :: xs, _ => by
    have ih := listMaxQ_mem (l := y :: xs) (by simp)
    rcases max_choice x (listMaxQ (y :: xs)) with h | h <;>
      rw [listMaxQ, h]
    · exact List.mem_cons_self x _
    · exact List.mem_cons_of_mem x ih

lemma le_listMaxQ : ∀ {l : List ℚ} {x : ℚ}, x ∈ l → x ≤ listMaxQ l
  | [], _, hx => absurd hx (by simp)
  | [y], x, hx => by simp_all [listMaxQ]
  | y :: z :: xs, x, hx => by
    rcases List.mem_cons.mp hx with h | h
    · simp [listMaxQ, h, le_max_iff]
    · have := le_listMaxQ (l := z :: xs) h
      simp only [listMaxQ, le_max_iff]
      right
      exact this

lemma mem_filterHighest {ms : List (Nat × ℚ)} {kv : Nat × ℚ} :
    kv ∈ filterHighest ms ↔ kv ∈ ms ∧ kv.2 = listMaxQ (ms.map Prod.snd) := by
  simp [filterHighest, List.mem_filter]

lemma filterHighest_ne_nil {ms : List (Nat × ℚ)} (h : ms ≠ []) : filterHighest ms ≠ [] := by
  have hmem : listMaxQ (ms.map Prod.snd) ∈ ms.map Prod.snd :=
    listMaxQ_mem (by simpa using h)
  rcases List.mem_map.mp hmem with ⟨kv, hkv, hval⟩
  intro hnil
  exact (List.eq_nil_iff_forall_not_mem.mp hnil kv)
    (mem_filterHighest.mpr ⟨hkv, hval⟩)

lemma filterMap_eq_map_of {α β : Type} {f : α → Option β} {g : α → β} :
    ∀ {l : List α}, (∀ a ∈ l, f a = some (g a)) → l.filterMap f = l.map g
  | [], _ => by simp
  | a :: l, h => by
    have ha := h a (by simp)
    have hl := filterMap_eq_map_of (l := l) (fun x hx => h x (by simp [hx]))
    simp [List.filterMap_cons, ha, hl]

lemma topMatches_pos {st : PandasMatcher} {ms : List (Nat × ℚ)} {opt : ℚ}
    (h : round2 st.required_threshold ≤ round2 (listMaxQ (ms.map Prod.snd))) :
    st.topMatches ms opt = (filterHighest ms).map
      (fun kv => (kv.1, if kv.2 < opt then "REVIEW" else "MATCHED", kv.2)) := by
  refine filterMap_eq_map_of (fun kv hkv => ?_)
  have hval := (mem_filterHighest.mp hkv).2
  rw [hval]
  simp [h]

lemma topMatches_neg {st : PandasMatcher} {ms : List (Nat × ℚ)} {opt : ℚ}
    (h : ¬ round2 st.required_threshold ≤ round2 (listMaxQ (ms.map Prod.snd))) :
    st.topMatches ms opt = [] := by
  refine List.filterMap_eq_nil_iff.mpr (fun kv hkv => ?_)
  have hval := (mem_filterHighest.mp hkv).2
  rw [hval]
  simp [h]

lemma topMatches_status {st : PandasMatcher} {ms : List (Nat × ℚ)} {opt : ℚ}
    {x : Nat × String × ℚ} (hx : x ∈ st.topMatches ms opt) :
    x.2.1 = "REVIEW" ∨ x.2.1 = "MATCHED" := by
  rcases List.mem_filterMap.mp hx with ⟨kv, _, hkv⟩
  by_cases hc : round2 st.required_threshold ≤ round2 kv.2
  · simp only [hc, if_true] at hkv
    have hx' := Option.some.inj hkv
    rw [← hx']
    by_cases hlt : kv.2 < opt <;> simp [hlt]
  · simp [hc] at hkv

lemma getD_map_range {α : Type} {n i : Nat} (f : Nat → α) (d : α) (h : i < n) :
    ((List.range n).map f).getD i d = f i := by
  rw [List.getD_eq_getElem?_getD, List.getElem?_map, List.getElem?_range h]
  rfl

lemma classifyRow_of_nil {sim : String → String → ℚ} {st : PandasMatcher}
    {uniq : String → ℚ} {opt : ℚ} {idx : Nat}
    (h : st.topMatches (st.matchScores sim uniq idx) opt = []) :
    st.classifyRow sim uniq opt idx = ⟨"UNMATCHED", none, none⟩ := by
  simp [PandasMatcher.classifyRow, h]

lemma classifyRow_of_single {sim : String → String → ℚ} {st : PandasMatcher}
    {uniq : String → ℚ} {opt : ℚ} {idx i : Nat} {s : String} {v : ℚ}
    (h : st.topMatches (st.matchScores sim uniq idx) opt = [(i, s, v)]) :
    st.classifyRow sim uniq opt idx = ⟨s, some [i + 2], some v⟩ := by
  simp [PandasMatcher.classifyRow, h]

lemma classifyRow_of_multi {sim : String → String → ℚ} {st : PandasMatcher}
    {uniq : String → ℚ} {opt : ℚ} {idx : Nat} {x y : Nat × String × ℚ}
    {rest : List (Nat × String × ℚ)}
    (h : st.topMatches (st.matchScores sim uniq idx) opt = x :: y :: rest) :
    st.classifyRow sim uniq opt idx =
      ⟨"AMBIGUOUS", some ((x :: y :: rest).map (fun z => z.1 + 2)), none⟩ := by
  simp [PandasMatcher.classifyRow, h]

lemma classifyRow_unmatched_iff {sim : String → String → ℚ} {st : PandasMatcher}
    {uniq : String → ℚ} {opt : ℚ} {idx : Nat} :
    (st.classifyRow sim uniq opt idx).match_status = "UNMATCHED" ↔
      st.topMatches (st.matchScores sim uniq idx) opt = [] := by
  rcases htm : st.topMatches (st.matchScores sim uniq idx) opt with _ | ⟨x, _ | ⟨y, rest⟩⟩
  · simp [classifyRow_of_nil htm]
  · obtain ⟨i, s, v⟩ := x
    rw [classifyRow_of_single htm]
    rcases topMatches_status (htm ▸ List.mem_singleton_self (i, s, v)) with h | h <;>
      simp at h <;> simp [h]
  · rw [classifyRow_of_multi htm]
    simp

lemma classifyRow_row_index_none {sim : String → String → ℚ} {st : PandasMatcher}
    {uniq : String → ℚ} {opt : ℚ} {idx : Nat}
    (h : (st.classifyRow sim uniq opt idx).match_status = "UNMATCHED") :
    st.classifyRow sim uniq opt idx = ⟨"UNMATCHED", none, none⟩ :=
  classifyRow_of_nil (classifyRow_unmatched_iff.mp h)

lemma mem_get_column_dupes {vals : List (Option (List Nat))} {i : Nat} :
    i ∈ get_column_dupes vals ↔
      i < vals.length ∧ ∃ v, vals.getD i none = some v ∧ 2 ≤ vals.count (some v) := by
  simp only [get_column_dupes, List.mem_filter, List.mem_range]
  constructor
  · rintro ⟨hi, hcond⟩
    refine ⟨hi, ?_⟩
    rcases hv : vals.getD i none with _ | v
    · rw [hv] at hcond
      simp at hcond
    · rw [hv] at hcond
      simp only [decide_eq_true_eq] at hcond
      exact ⟨v, rfl, hcond⟩
  · rintro ⟨hi, v, hv, hcount⟩
    refine ⟨hi, ?_⟩
    rw [hv]
    simpa using hcount

lemma two_le_count_aux {α : Type} [BEq α] [LawfulBEq α] {l : List α} {i j : Nat} {x : α}
    (hlt : i < j) (hi : l[i]? = some x) (hj : l[j]? = some x) : 2 ≤ l.count x := by
  have hsplit : l.take j ++ l.drop j = l := List.take_append_drop j l
  have h1 : x ∈ l.take j := by
    refine List.getElem?_mem (n := i) ?_
    rw [List.getElem?_take, if_pos hlt]
    exact hi
  have h2 : x ∈ l.drop j := by
    refine List.getElem?_mem (n := 0) ?_
    rw [List.getElem?_drop]
    simpa using hj
  have c1 : 0 < (l.take j).count x := List.count_pos_iff.mpr h1
  have c2 : 0 < (l.drop j).count x := List.count_pos_iff.mpr h2
  have := List.count_append x (l.take j) (l.drop j)
  rw [hsplit] at this
  omega

lemma two_le_count_of_getElem? {α : Type} [BEq α] [LawfulBEq α] {l : List α} {i j : Nat}
    {x : α} (hij : i ≠ j) (hi : l[i]? = some x) (hj : l[j]? = some x) : 2 ≤ l.count x := by
  rcases Nat.lt_or_ge i j with h | h
  · exact two_le_count_aux h hi hj
  · exact two_le_count_aux (Nat.lt_of_le_of_ne h (fun e => hij e.symm)) hj hi

lemma provisionalRows_getD {sim : String → String → ℚ} {st : PandasMatcher} {idx : Nat}
    (h : idx < st.df_to.rows.length) :
    (st.provisionalRows sim).getD idx default =
      st.classifyRow sim st.theUniq st.theOptimal idx :=
  getD_map_range _ _ h

lemma provisionalRows_length {sim : String → String → ℚ} {st : PandasMatcher} :
    (st.provisionalRows sim).length = st.df_to.rows.length := by
  simp [PandasMatcher.provisionalRows]

lemma resolveDupes_getD {rows : List MatchedRow} {idx : Nat} (h : idx < rows.length) :
    (resolveDupes rows).getD idx default =
      (if idx ∈ get_column_dupes (rows.map (fun r => r.row_index)) then
        { rows.getD idx default with match_status := "DUPLICATES" }
      else rows.getD idx default) :=
  getD_map_range _ _ h

lemma filterMap_map_fst {β : Type} {f : Nat → Option (Nat × β)} :
    ∀ {l : List Nat}, (∀ a ∈ l, ∃ q, f a = some (a, q)) →
      (l.filterMap f).map Prod.fst = l
  | [], _ => by simp
  | a :: l, h => by
    obtain ⟨q, hq⟩ := h a (by simp)
    have ih := filterMap_map_fst (l := l) (fun x hx => h x (by simp [hx]))
    simp [List.filterMap_cons, hq, ih]

lemma nunique_pos {t : Table} (c : String) (h : t.rows ≠ []) : 0 < t.nunique c := by
  have hlen : (t.colValues c).length = t.rows.length := by
    simp [Table.colValues]
  have hne : t.colValues c ≠ [] := by
    intro hnil
    rw [hnil] at hlen
    exact h (List.length_eq_zero.mp hlen.symm)
  have : (t.colValues c).dedup ≠ [] := fun hd => hne ((List.dedup_eq_nil _).mp hd)
  exact List.length_pos.mpr this

lemma getD_map_of_lt {α β : Type} (f : α → β) {l : List α} {i : Nat} (h : i < l.length)
    (d : α) (d' : β) : (l.map f).getD i d' = f (l.getD i d) := by
  rw [List.getD_eq_getElem?_getD, List.getElem?_map, List.getD_eq_getElem?_getD,
    List.getElem?_eq_getElem h]
  rfl

lemma vals_getD {sim : String → String → ℚ} {st : PandasMatcher} {idx : Nat}
    (hidx : idx < st.df_to.rows.length) :
    ((st.provisionalRows sim).map (fun r => r.row_index)).getD idx none =
      (st.classifyRow sim st.theUniq st.theOptimal idx).row_index := by
  have hlen : idx < (st.provisionalRows sim).length := by
    rw [provisionalRows_length]
    exact hidx
  rw [getD_map_of_lt _ hlen default none, provisionalRows_getD hidx]

lemma not_mem_dupes_of_unmatched {sim : String → String → ℚ} {st : PandasMatcher}
    {idx : Nat} (hidx : idx < st.df_to.rows.length)
    (hu : (st.classifyRow sim st.theUniq st.theOptimal idx).match_status = "UNMATCHED") :
    idx ∉ get_column_dupes ((st.provisionalRows sim).map (fun r => r.row_index)) := by
  intro hmem
  rcases (mem_get_column_dupes.mp hmem).2 with ⟨v, hv, _⟩
  rw [vals_getD hidx, classifyRow_row_index_none hu] at hv
  exact Option.noConfusion hv

lemma matchAll_row_of_unmatched {sim : String → String → ℚ} {st : PandasMatcher}
    {idx : Nat} (hidx : idx < st.df_to.rows.length)
    (hu : (st.classifyRow sim st.theUniq st.theOptimal idx).match_status = "UNMATCHED") :
    (st.matchAll sim).1.getD idx default = ⟨"UNMATCHED", none, none⟩ := by
  have hfst : (st.matchAll sim).1 = resolveDupes (st.provisionalRows sim) := rfl
  have hlen : idx < (st.provisionalRows sim).length := by
    rw [provisionalRows_length]
    exact hidx
  rw [hfst, resolveDupes_getD hlen, if_neg (not_mem_dupes_of_unmatched hidx hu),
    provisionalRows_getD hidx, classifyRow_row_index_none hu]

lemma matchAll_status_of_not_unmatched {sim : String → String → ℚ} {st : PandasMatcher}
    {idx : Nat} (hidx : idx < st.df_to.rows.length)
    (hu : (st.classifyRow sim st.theUniq st.theOptimal idx).match_status ≠ "UNMATCHED") :
    ((st.matchAll sim).1.getD idx default).match_status ≠ "UNMATCHED" := by
  have hfst : (st.matchAll sim).1 = resolveDupes (st.provisionalRows sim) := rfl
  have hlen : idx < (st.provisionalRows sim).length := by
    rw [provisionalRows_length]
    exact hidx
  rw [hfst, resolveDupes_getD hlen, provisionalRows_getD hidx]
  by_cases hd : idx ∈ get_column_dupes ((st.provisionalRows sim).map (fun r => r.row_index))
  · rw [if_pos hd]
    show ("DUPLICATES" : String) ≠ "UNMATCHED"
    decide
  · rw [if_neg hd]
    exact hu

lemma topMatches_nil_iff {sim : String → String → ℚ} {st : PandasMatcher} {idx : Nat}
    (hne : st.matchScores sim st.theUniq idx ≠ []) :
    st.topMatches (st.matchScores sim st.theUniq idx) st.theOptimal = [] ↔
      round2 (listMaxQ ((st.matchScores sim st.theUniq idx).map Prod.snd)) <
        round2 st.required_threshold := by
  constructor
  · intro htm
    by_contra hnot
    rw [not_lt] at hnot
    rw [topMatches_pos hnot] at htm
    rcases List.map_eq_nil_iff.mp htm with hfh
    exact filterHighest_ne_nil hne hfh
  · intro hlt
    exact topMatches_neg (not_le.mpr hlt)

/-! ### Evaluation lemmas for the concrete fixtures -/

lemma exSt_theUniq : exSt.theUniq "a" = 1 := by
  norm_num [PandasMatcher.theUniq, PandasMatcher.activeNames, PandasMatcher.activeCols,
    adjusted_uniqueness, Table.nunique, Table.colValues, Table.cell, exSt]

lemma exSt_theOptimal : exSt.theOptimal = 75 := by
  have hnames : exSt.activeNames = ["a"] := by decide
  rw [PandasMatcher.theOptimal, hnames]
  have hthr : exSt.column_threshold "a" = 75 := rfl
  norm_num [hthr, exSt_theUniq]

lemma exSt_matchScores : exSt.matchScores exSim exSt.theUniq 0 = [(0, 100), (1, 50)] := by
  have hpool : exSt.poolIndices 0 = [0, 1] := by decide
  have hact : exSt.activeCols = [("a", ["a"])] := by decide
  have hc0 : exSt.choiceStr ["a"] 0 = "x" := by decide
  have hc1 : exSt.choiceStr ["a"] 1 = "y" := by decide
  have hcell : exSt.df_to.cell 0 "a" = "x" := by decide
  have hcut : exSt.columnCutoff "a" = 0 := rfl
  simp only [PandasMatcher.matchScores, hpool, hact, hc0, hc1, hcell, hcut, exSt_theUniq,
    List.filterMap_cons, List.filterMap_nil, exSim, beq_iff_eq,
    eq_false (by decide : ¬("y" = "x")), eq_self_iff_true]
  norm_num

lemma exSt_filterHighest : filterHighest (exSt.matchScores exSim exSt.theUniq 0) = [(0, 100)] := by
  rw [exSt_matchScores]
  have hmax : listMaxQ ([(0, (100 : ℚ)), (1, 50)].map Prod.snd) = 100 := by
    norm_num [listMaxQ, max_def]
  simp only [filterHighest, hmax, List.filter_cons, List.filter_nil, beq_iff_eq]
  norm_num

lemma exSt_round2_le : round2 exSt.required_threshold ≤ round2 100 := by
  norm_num [exSt, round2, round_eq]

lemma exSt_matchScoresTie :
    exSt.matchScores exSimTie exSt.theUniq 0 = [(0, 22501 / 250), (1, 90)] := by
  have hpool : exSt.poolIndices 0 = [0, 1] := by decide
  have hact : exSt.activeCols = [("a", ["a"])] := by decide
  have hc0 : exSt.choiceStr ["a"] 0 = "x" := by decide
  have hc1 : exSt.choiceStr ["a"] 1 = "y" := by decide
  have hcell : exSt.df_to.cell 0 "a" = "x" := by decide
  have hcut : exSt.columnCutoff "a" = 0 := rfl
  simp only [PandasMatcher.matchScores, hpool, hact, hc0, hc1, hcell, hcut, exSt_theUniq,
    List.filterMap_cons, List.filterMap_nil, exSimTie, beq_iff_eq,
    eq_false (by decide : ¬("y" = "x")), eq_self_iff_true]
  norm_num

lemma exSt_filterHighestTie :
    filterHighest (exSt.matchScores exSimTie exSt.theUniq 0) = [(0, 22501 / 250)] := by
  rw [exSt_matchScoresTie]
  have hmax : listMaxQ ([(0, (22501 / 250 : ℚ)), (1, 90)].map Prod.snd) = 22501 / 250 := by
    norm_num [listMaxQ, max_def]
  simp only [filterHighest, hmax, List.filter_cons, List.filter_nil, beq_iff_eq]
  norm_num

lemma exSt_topMatchesTie :
    exSt.topMatches (exSt.matchScores exSimTie exSt.theUniq 0) exSt.theOptimal =
      [(0, "MATCHED", 22501 / 250)] := by
  rw [PandasMatcher.topMatches, exSt_filterHighestTie]
  have hth : round2 exSt.required_threshold ≤ round2 (22501 / 250) := by
    norm_num [exSt, round2, round_eq]
  have hnlt : ¬ ((22501 / 250 : ℚ) < exSt.theOptimal) := by
    rw [exSt_theOptimal]
    norm_num
  simp [hth, hnlt]

lemma exStDup_theUniq : exStDup.theUniq "a" = 1 := by
  norm_num [PandasMatcher.theUniq, PandasMatcher.activeNames, PandasMatcher.activeCols,
    adjusted_uniqueness, Table.nunique, Table.colValues, Table.cell, exStDup, exSt]

lemma exStDup_theOptimal : exStDup.theOptimal = 75 := by
  have hnames : exStDup.activeNames = ["a"] := by decide
  rw [PandasMatcher.theOptimal, hnames]
  have hthr : exStDup.column_threshold "a" = 75 := rfl
  norm_num [hthr, exStDup_theUniq]

lemma exStDup_matchScores (idx : Nat) (h : idx < 2) :
    exStDup.matchScores exSim exStDup.theUniq idx = [(0, 100)] := by
  have hpool : exStDup.poolIndices idx = [0] := by
    interval_cases idx <;> decide
  have hact : exStDup.activeCols = [("a", ["a"])] := by decide
  have hc0 : exStDup.choiceStr ["a"] 0 = "x" := by decide
  have hcell : exStDup.df_to.cell idx "a" = "x" := by
    interval_cases idx <;> decide
  have hcut : exStDup.columnCutoff "a" = 0 := rfl
  simp only [PandasMatcher.matchScores, hpool, hact, hc0, hcell, hcut, exStDup_theUniq,
    List.filterMap_cons, List.filterMap_nil, exSim, beq_iff_eq, eq_self_iff_true]
  norm_num

lemma exStDup_classifyRow (idx : Nat) (h : idx < 2) :
    exStDup.classifyRow exSim exStDup.theUniq exStDup.theOptimal idx =
      ⟨"MATCHED", some [2], some 100⟩ := by
  have htm : exStDup.topMatches (exStDup.matchScores exSim exStDup.theUniq idx)
      exStDup.theOptimal = [(0, "MATCHED", 100)] := by
    rw [exStDup_matchScores idx h]
    have hmax : listMaxQ [(100 : ℚ)] = 100 := rfl
    have hth : round2 exStDup.required_threshold ≤ round2 100 := by
      norm_num [exStDup, exSt, round2, round_eq]
    have hnlt : ¬ ((100 : ℚ) < exStDup.theOptimal) := by
      rw [exStDup_theOptimal]
      norm_num
    simp [PandasMatcher.topMatches, filterHighest, hmax, hth, hnlt, beq_iff_eq]
  exact classifyRow_of_single htm

lemma exStDup_provisional :
    exStDup.provisionalRows exSim =
      [⟨"MATCHED", some [2], some 100⟩, ⟨"MATCHED", some [2], some 100⟩] := by
  have hlen : exStDup.df_to.rows.length = 2 := rfl
  rw [PandasMatcher.provisionalRows, hlen]
  rw [show List.range 2 = [0, 1] from rfl]
  simp [exStDup_classifyRow 0 (by norm_num), exStDup_classifyRow 1 (by norm_num)]

/-! ### Claim theorems -/

/-- C4: for every non-empty list of selected columns of a table with at
least one row, the `adjusted_uniqueness` weights over those columns sum
to exactly 1. -/
theorem adjusted_uniqueness_sum_one (t : Table) (cols : List String)
    (hcols : cols ≠ []) (hrows : t.rows ≠ []) :
    (cols.map (adjusted_uniqueness t cols)).sum = 1 := by
  simp only [adjusted_uniqueness]
  set u : String → ℚ := fun c => (t.nunique c : ℚ) / (t.rows.length : ℚ) with hu
  set T : ℚ := (cols.map u).sum with hT
  have hpos : ∀ x ∈ cols.map u, 0 < x := by
    intro x hx
    rcases List.mem_map.mp hx with ⟨c, _, hc⟩
    rw [← hc, hu]
    have h1 : (0 : ℚ) < (t.nunique c : ℚ) := by
      exact_mod_cast nunique_pos c hrows
    have h2 : (0 : ℚ) < (t.rows.length : ℚ) := by
      have := List.length_pos.mpr hrows
      exact_mod_cast this
    exact div_pos h1 h2
  have hTpos : 0 < T := List.sum_pos _ hpos (by
    intro hnil
    exact hcols (List.map_eq_nil_iff.mp hnil))
  calc (cols.map (fun c => u c / T)).sum
      = (cols.map (fun c => u c * T⁻¹)).sum := by simp [div_eq_mul_inv]
    _ = (cols.map u).sum * T⁻¹ := List.sum_map_mul_right cols u T⁻¹
    _ = T * T⁻¹ := by rw [← hT]
    _ = 1 := mul_inv_cancel₀ (ne_of_gt hTpos)

/-- C1: a processed target row's final `match_status` is `UNMATCHED`
exactly when the rounded maximum composite score over its candidates is
strictly below the rounded required threshold, and in that case no
candidate position and no score are recorded. -/
theorem match_unmatched_iff (sim : String → String → ℚ) (st : PandasMatcher) (idx : Nat)
    (hidx : idx < st.df_to.rows.length)
    (hne : st.matchScores sim st.theUniq idx ≠ []) :
    (((st.matchAll sim).1.getD idx default).match_status = "UNMATCHED" ↔
      round2 (listMaxQ ((st.matchScores sim st.theUniq idx).map Prod.snd)) <
        round2 st.required_threshold) ∧
    (((st.matchAll sim).1.getD idx default).match_status = "UNMATCHED" →
      ((st.matchAll sim).1.getD idx default).row_index = none ∧
      ((st.matchAll sim).1.getD idx default).match_score = none) := by
  by_cases hu : (st.classifyRow sim st.theUniq st.theOptimal idx).match_status = "UNMATCHED"
  · have hrow := matchAll_row_of_unmatched hidx hu
    rw [hrow]
    have hlt := (topMatches_nil_iff hne).mp (classifyRow_unmatched_iff.mp hu)
    exact ⟨by simpa using hlt, fun _ => ⟨rfl, rfl⟩⟩
  · have hst := matchAll_status_of_not_unmatched hidx hu
    constructor
    · constructor
      · intro hcontra
        exact absurd hcontra hst
      · intro hlt
        exact absurd (classifyRow_unmatched_iff.mpr ((topMatches_nil_iff hne).mpr hlt)) hu
    · intro hcontra
      exact absurd hcontra hst

/-- Witness for C1: a row whose two candidates both score 50, below the
required threshold of 75, ends `UNMATCHED` with no position or score. -/
theorem match_unmatched_iff_witness :
    0 < exSt.df_to.rows.length ∧ exSt.matchScores exSimLow exSt.theUniq 0 ≠ [] ∧
      ((((exSt.matchAll exSimLow).1.getD 0 default).match_status = "UNMATCHED" ↔
        round2 (listMaxQ ((exSt.matchScores exSimLow exSt.theUniq 0).map Prod.snd)) <
          round2 exSt.required_threshold) ∧
      (((exSt.matchAll exSimLow).1.getD 0 default).match_status = "UNMATCHED" →
        ((exSt.matchAll exSimLow).1.getD 0 default).row_index = none ∧
        ((exSt.matchAll exSimLow).1.getD 0 default).match_score = none)) :=
  ⟨by decide, by decide, match_unmatched_iff exSimLow exSt 0 (by decide) (by decide)⟩

/-- C2: a row with exactly one threshold-clearing maximum candidate is
classified `MATCHED` when its score is at least the optimal threshold
and `REVIEW` when strictly below it, where the optimal threshold is the
uniqueness-weighted sum of the per-column thresholds over the actively
mapped columns. -/
theorem single_top_match_status (sim : String → String → ℚ) (st : PandasMatcher)
    (idx i : Nat) (v : ℚ) (hidx : idx < st.df_to.rows.length)
    (hhigh : filterHighest (st.matchScores sim st.theUniq idx) = [(i, v)])
    (hth : round2 st.required_threshold ≤ round2 v) :
    st.theOptimal =
      (st.activeNames.map (fun c =>
        st.column_threshold c * adjusted_uniqueness st.df_to st.activeNames c)).sum ∧
    (((st.provisionalRows sim).getD idx default).match_status = "MATCHED" ↔
      st.theOptimal ≤ v) ∧
    (((st.provisionalRows sim).getD idx default).match_status = "REVIEW" ↔
      v < st.theOptimal) := by
  refine ⟨rfl, ?_⟩
  have hv : v = listMaxQ ((st.matchScores sim st.theUniq idx).map Prod.snd) :=
    (mem_filterHighest.mp (hhigh ▸ List.mem_singleton_self (i, v))).2
  have htm : st.topMatches (st.matchScores sim st.theUniq idx) st.theOptimal =
      [(i, if v < st.theOptimal then "REVIEW" else "MATCHED", v)] := by
    rw [topMatches_pos (hv ▸ hth), hhigh]
    rfl
  rw [provisionalRows_getD hidx, classifyRow_of_single htm]
  by_cases hlt : v < st.theOptimal
  · rw [if_pos hlt]
    constructor
    · constructor
      · intro hcontra
        have hbad : ("REVIEW" : String) = "MATCHED" := hcontra
        exact absurd hbad (by decide)
      · intro hle
        exact absurd hle (not_le.mpr hlt)
    · simp [hlt]
  · rw [if_neg hlt]
    constructor
    · simp [not_lt.mp hlt]
    · constructor
      · intro hcontra
        have hbad : ("MATCHED" : String) = "REVIEW" := hcontra
        exact absurd hbad (by decide)
      · intro hcontra
        exact absurd hcontra hlt

/-- Witness for C2: the unique maximum candidate scores 100, at or above
the optimal threshold of 75, so the row is `MATCHED`. -/
theorem single_top_match_status_witness :
    0 < exSt.df_to.rows.length ∧
      filterHighest (exSt.matchScores exSim exSt.theUniq 0) = [(0, 100)] ∧
      round2 exSt.required_threshold ≤ round2 100 ∧
      (exSt.theOptimal =
        (exSt.activeNames.map (fun c =>
          exSt.column_threshold c * adjusted_uniqueness exSt.df_to exSt.activeNames c)).sum ∧
      (((exSt.provisionalRows exSim).getD 0 default).match_status = "MATCHED" ↔
        exSt.theOptimal ≤ 100) ∧
      (((exSt.provisionalRows exSim).getD 0 default).match_status = "REVIEW" ↔
        (100 : ℚ) < exSt.theOptimal)) :=
  ⟨by decide, exSt_filterHighest, exSt_round2_le,
    single_top_match_status exSim exSt 0 0 100 (by decide) exSt_filterHighest exSt_round2_le⟩

/-- Witness for C4 at a concrete one-column, one-row table. -/
theorem adjusted_uniqueness_sum_one_witness :
    (["a"] : List String) ≠ [] ∧ (Table.mk ["a"] [["x"]]).rows ≠ [] ∧
      (["a"].map (adjusted_uniqueness ⟨["a"], [["x"]]⟩ ["a"])).sum = 1 :=
  ⟨by decide, by decide,
    adjusted_uniqueness_sum_one ⟨["a"], [["x"]]⟩ ["a"] (by decide) (by decide)⟩

/-- C5: when the group restriction selects no reference row, or when no
group columns are configured, every reference row receives a composite
score (the candidate pool is the whole reference table), provided the
scorer is non-negative, the `cutoff` floor is off, and at least one
column is actively mapped. -/
theorem empty_subset_scores_all_rows (sim : String → String → ℚ) (st : PandasMatcher)
    (uniq : String → ℚ) (index_to : Nat)
    (hsim : ∀ a b, 0 ≤ sim a b) (hcut : st.cutoff = false)
    (hact : st.activeCols ≠ [])
    (hsub : st.subsetIndices index_to = [] ∨ st.column_groups = []) :
    (st.matchScores sim uniq index_to).map Prod.fst =
      List.range st.df_from.rows.length := by
  have hpool : st.poolIndices index_to = List.range st.df_from.rows.length := by
    rcases hsub with h | h
    · simp [PandasMatcher.poolIndices, h]
    · have hall : st.subsetIndices index_to = List.range st.df_from.rows.length := by
        rw [PandasMatcher.subsetIndices, h]
        exact List.filter_eq_self.mpr (fun a _ => by simp [List.all_nil])
      rw [PandasMatcher.poolIndices, hall]
      exact ite_self _
  rw [PandasMatcher.matchScores, hpool]
  refine filterMap_map_fst (fun i _ => ?_)
  have hcontribs :
      (st.activeCols.filterMap (fun kv =>
        let s := sim (st.df_to.cell index_to kv.1) (st.choiceStr kv.2 i)
        if st.columnCutoff kv.1 ≤ s then some (s * uniq kv.1) else none)) =
      st.activeCols.map (fun kv =>
        sim (st.df_to.cell index_to kv.1) (st.choiceStr kv.2 i) * uniq kv.1) := by
    refine filterMap_eq_map_of (fun kv _ => ?_)
    have : st.columnCutoff kv.1 = 0 := by simp [PandasMatcher.columnCutoff, hcut]
    simp only [this]
    rw [if_pos (hsim _ _)]
  have hne : ((st.activeCols.map (fun kv =>
      sim (st.df_to.cell index_to kv.1) (st.choiceStr kv.2 i) * uniq kv.1)).isEmpty) ≠ true := by
    intro hempty
    rw [List.isEmpty_iff, List.map_eq_nil_iff] at hempty
    exact hact hempty
  simp only [hcontribs]
  rw [if_neg hne]
  exact ⟨_, rfl⟩

/-- Witness for C5: with a group column whose value is absent from the
reference table, both reference rows are still scored. -/
theorem empty_subset_scores_all_rows_witness :
    (∀ a b, 0 ≤ exSim a b) ∧ exStGroups.cutoff = false ∧
      exStGroups.activeCols ≠ [] ∧ exStGroups.subsetIndices 0 = [] ∧
      (exStGroups.matchScores exSim exStGroups.theUniq 0).map Prod.fst =
        List.range exStGroups.df_from.rows.length := by
  have hsim : ∀ a b, 0 ≤ exSim a b := by
    intro a b
    unfold exSim
    split <;> norm_num
  exact ⟨hsim, rfl, by decide, by decide,
    empty_subset_scores_all_rows exSim exStGroups exStGroups.theUniq 0 hsim rfl
      (by decide) (Or.inl (by decide))⟩

/-- C7 counterexample: a cross-name link (`"name" → "fullname"`) whose
reference column `"fullname"` is present in the newly assigned reference
table is nevertheless dropped by the `df_from` setter, leaving the key's
list empty rather than keeping the present entry. -/
theorem setDfFrom_drops_present_cross_link :
    exStCross.columns_to_match = [("name", ["fullname"])] ∧
      "fullname" ∈ exDfNew.header ∧
      (exStCross.setDfFrom exDfNew).columns_to_match = [("name", [])] :=
  ⟨rfl, by decide, by decide⟩

/-- C7 (amended): the `df_from` setter discards all previously listed
entries — its result depends only on the mapping's keys — and each key's
new list holds only the key's own name, drawn from the new reference
table's columns; cross-name links are dropped even when their reference
column exists in the new table. -/
theorem setDfFrom_self_links_only (st st' : PandasMatcher) (df : Table)
    (hkeys : st.columns_to_match.map Prod.fst = st'.columns_to_match.map Prod.fst) :
    (st.setDfFrom df).columns_to_match = (st'.setDfFrom df).columns_to_match ∧
      ∀ kv ∈ (st.setDfFrom df).columns_to_match, ∀ e ∈ kv.2,
        e = kv.1 ∧ e ∈ df.header := by
  constructor
  · have hfun : ∀ (m : List (String × List String)),
        m.map (fun kv => (kv.1, (normalizeCells df).header.filter (fun c => c == kv.1))) =
          (m.map Prod.fst).map
            (fun k => (k, (normalizeCells df).header.filter (fun c => c == k))) := by
      intro m
      rw [List.map_map]
      rfl
    show st.columns_to_match.map _ = st'.columns_to_match.map _
    rw [hfun, hfun, hkeys]
  · intro kv hkv e he
    rcases List.mem_map.mp hkv with ⟨kv₀, _, hkv₀⟩
    rw [← hkv₀] at he
    simp only at he
    have hmem := List.mem_filter.mp he
    have heq : e = kv₀.1 := by simpa using hmem.2
    rw [← hkv₀]
    exact ⟨heq, hmem.1⟩

/-- Witness for C7 (amended) at two states sharing the key `"name"`. -/
theorem setDfFrom_self_links_only_witness :
    exStCross.columns_to_match.map Prod.fst = exStCross2.columns_to_match.map Prod.fst ∧
      ((exStCross.setDfFrom exDfNew).columns_to_match =
          (exStCross2.setDfFrom exDfNew).columns_to_match ∧
        ∀ kv ∈ (exStCross.setDfFrom exDfNew).columns_to_match, ∀ e ∈ kv.2,
          e = kv.1 ∧ e ∈ exDfNew.header) :=
  ⟨by decide, setDfFrom_self_links_only exStCross exStCross2 exDfNew (by decide)⟩

/-- C10: assigning a new reference table empties `columns_to_get`,
wipes the previous content of every mapping value list (only the key's
own name, when present among the new columns, remains), and leaves
`required_threshold`, `column_threshold`, `column_groups` and the
`cutoff` flag unchanged. -/
theorem setDfFrom_state_reset (st : PandasMatcher) (df : Table) :
    (st.setDfFrom df).columns_to_get = [] ∧
      (∀ kv ∈ (st.setDfFrom df).columns_to_match, ∀ e ∈ kv.2, e = kv.1) ∧
      (st.setDfFrom df).required_threshold = st.required_threshold ∧
      (st.setDfFrom df).column_threshold = st.column_threshold ∧
      (st.setDfFrom df).column_groups = st.column_groups ∧
      (st.setDfFrom df).cutoff = st.cutoff := by
  refine ⟨rfl, ?_, rfl, rfl, rfl, rfl⟩
  intro kv hkv e he
  rcases List.mem_map.mp hkv with ⟨kv₀, _, hkv₀⟩
  rw [← hkv₀] at he ⊢
  simp only at he ⊢
  have hmem := List.mem_filter.mp he
  simpa using hmem.2

/-- C3 counterexample: two candidates whose composite scores `90.004`
and `90` agree after rounding to 2 decimals and both clear the rounded
threshold, yet the classifier keeps only the exact maximum and reports
`MATCHED`, not `AMBIGUOUS`: ties are exact-equality ties, not
rounded-equality ties. -/
theorem rounded_tie_not_ambiguous :
    exSt.matchScores exSimTie exSt.theUniq 0 = [(0, 22501 / 250), (1, 90)] ∧
      round2 (22501 / 250) = round2 90 ∧
      (22501 / 250 : ℚ) ≠ 90 ∧
      round2 exSt.required_threshold ≤ round2 90 ∧
      (exSt.classifyRow exSimTie exSt.theUniq exSt.theOptimal 0).match_status =
        "MATCHED" := by
  refine ⟨exSt_matchScoresTie, ?_, ?_, ?_, ?_⟩
  · norm_num [round2, round_eq]
  · norm_num
  · norm_num [exSt, round2, round_eq]
  · rw [classifyRow_of_single exSt_topMatchesTie]

/-- C3 (amended): candidates tie exactly when their unrounded composite
scores are equal; the classifier reports `AMBIGUOUS` precisely when at
least two candidates attain the exact maximum and the rounded maximum
reaches the rounded required threshold. -/
theorem ambiguous_iff_exact_tie (sim : String → String → ℚ) (st : PandasMatcher)
    (idx : Nat) :
    (st.classifyRow sim st.theUniq st.theOptimal idx).match_status = "AMBIGUOUS" ↔
      2 ≤ (filterHighest (st.matchScores sim st.theUniq idx)).length ∧
        round2 st.required_threshold ≤
          round2 (listMaxQ ((st.matchScores sim st.theUniq idx).map Prod.snd)) := by
  by_cases hth : round2 st.required_threshold ≤
      round2 (listMaxQ ((st.matchScores sim st.theUniq idx).map Prod.snd))
  · have htm : st.topMatches (st.matchScores sim st.theUniq idx) st.theOptimal =
        (filterHighest (st.matchScores sim st.theUniq idx)).map
          (fun kv => (kv.1, if kv.2 < st.theOptimal then "REVIEW" else "MATCHED", kv.2)) :=
      topMatches_pos hth
    rcases hfh : filterHighest (st.matchScores sim st.theUniq idx) with _ | ⟨x, xs⟩
    · rw [hfh] at htm
      simp only [List.map_nil] at htm
      rw [classifyRow_of_nil htm]
      constructor
      · intro habs
        exact absurd habs (by decide)
      · rintro ⟨h2, _⟩
        simp at h2
    · rcases xs with _ | ⟨y, rest⟩
      · rw [hfh] at htm
        simp only [List.map_cons, List.map_nil] at htm
        rw [classifyRow_of_single htm]
        constructor
        · intro habs
          have := topMatches_status (htm ▸ List.mem_singleton_self _)
          simp only at this habs
          rcases this with h | h <;> rw [habs] at h <;> exact absurd h (by decide)
        · rintro ⟨h2, _⟩
          simp at h2
      · rw [hfh] at htm
        simp only [List.map_cons] at htm
        rw [classifyRow_of_multi htm]
        refine ⟨fun _ => ⟨?_, hth⟩, fun _ => rfl⟩
        simp only [List.length_cons]
        omega
  · rw [classifyRow_of_nil (topMatches_neg hth)]
    constructor
    · intro habs
      exact absurd habs (by decide)
    · rintro ⟨_, h⟩
      exact absurd h hth

/-- C6: two distinct target rows whose unique best candidate resolved to
the same reference-row position both end with status `DUPLICATES` after
the duplicate-resolution pass, whatever their per-row classification
said. -/
theorem duplicates_override (sim : String → String → ℚ) (st : PandasMatcher)
    (i j p : Nat) (ri rj : MatchedRow) (hij : i ≠ j)
    (hi : (st.provisionalRows sim)[i]? = some ri) (hri : ri.row_index = some [p])
    (hj : (st.provisionalRows sim)[j]? = some rj) (hrj : rj.row_index = some [p]) :
    ((st.matchAll sim).1.getD i default).match_status = "DUPLICATES" ∧
      ((st.matchAll sim).1.getD j default).match_status = "DUPLICATES" := by
  have key : ∀ a b : Nat, ∀ ra rb : MatchedRow, a ≠ b →
      (st.provisionalRows sim)[a]? = some ra → ra.row_index = some [p] →
      (st.provisionalRows sim)[b]? = some rb → rb.row_index = some [p] →
      ((st.matchAll sim).1.getD a default).match_status = "DUPLICATES" := by
    intro a b ra rb hab ha hra hb hrb
    have hfst : (st.matchAll sim).1 = resolveDupes (st.provisionalRows sim) := rfl
    have halen : a < (st.provisionalRows sim).length := (List.getElem?_eq_some.mp ha).1
    have hva : ((st.provisionalRows sim).map (fun r => r.row_index))[a]? =
        some (some [p]) := by
      rw [List.getElem?_map, ha]
      simp [hra]
    have hvb : ((st.provisionalRows sim).map (fun r => r.row_index))[b]? =
        some (some [p]) := by
      rw [List.getElem?_map, hb]
      simp [hrb]
    have hcount : 2 ≤ ((st.provisionalRows sim).map (fun r => r.row_index)).count
        (some [p]) := two_le_count_of_getElem? hab hva hvb
    have hgetD : ((st.provisionalRows sim).map (fun r => r.row_index)).getD a none =
        some [p] := by
      rw [List.getD_eq_getElem?_getD, hva]
      rfl
    have hmem : a ∈ get_column_dupes ((st.provisionalRows sim).map (fun r => r.row_index)) :=
      mem_get_column_dupes.mpr ⟨by simpa using halen, [p], hgetD, hcount⟩
    rw [hfst, resolveDupes_getD halen, if_pos hmem]
  exact ⟨key i j ri rj hij hi hri hj hrj,
    key j i rj ri (fun e => hij e.symm) hj hrj hi hri⟩

/-- Witness for C6: two identical target rows both uniquely match
reference row 0; after resolution both carry `DUPLICATES`. -/
theorem duplicates_override_witness :
    (0 : Nat) ≠ 1 ∧
      (exStDup.provisionalRows exSim)[0]? = some ⟨"MATCHED", some [2], some 100⟩ ∧
      (exStDup.provisionalRows exSim)[1]? = some ⟨"MATCHED", some [2], some 100⟩ ∧
      ((exStDup.matchAll exSim).1.getD 0 default).match_status = "DUPLICATES" ∧
      ((exStDup.matchAll exSim).1.getD 1 default).match_status = "DUPLICATES" := by
  have h0 : (exStDup.provisionalRows exSim)[0]? = some ⟨"MATCHED", some [2], some 100⟩ := by
    rw [exStDup_provisional]
    rfl
  have h1 : (exStDup.provisionalRows exSim)[1]? = some ⟨"MATCHED", some [2], some 100⟩ := by
    rw [exStDup_provisional]
    rfl
  exact ⟨by decide, h0, h1,
    duplicates_override exSim exStDup 0 1 2 ⟨"MATCHED", some [2], some 100⟩
      ⟨"MATCHED", some [2], some 100⟩ (by decide) h0 rfl h1 rfl⟩

/-- C9: with an empty reference table, every target row is classified
`UNMATCHED` with no recorded position or score, and the summary reports
a 0% total match rate and the -1% sentinel for highest and lowest
score. -/
theorem empty_reference_all_unmatched (sim : String → String → ℚ) (st : PandasMatcher)
    (h : st.df_from.rows = []) :
    (∀ r ∈ (st.matchAll sim).1, r = ⟨"UNMATCHED", none, none⟩) ∧
      (st.matchAll sim).2 = ⟨0, 0, -1, -1⟩ := by
  have hclass : ∀ idx, st.classifyRow sim st.theUniq st.theOptimal idx =
      ⟨"UNMATCHED", none, none⟩ := by
    intro idx
    apply classifyRow_of_nil
    have hsub : st.subsetIndices idx = [] := by
      rw [PandasMatcher.subsetIndices, h]
      rfl
    have hpool : st.poolIndices idx = [] := by
      rw [PandasMatcher.poolIndices, hsub]
      simp [h]
    have hms : st.matchScores sim st.theUniq idx = [] := by
      rw [PandasMatcher.matchScores, hpool]
      rfl
    rw [hms]
    rfl
  have hprov : ∀ r ∈ st.provisionalRows sim, r = ⟨"UNMATCHED", none, none⟩ := by
    intro r hr
    rcases List.mem_map.mp hr with ⟨i, _, hi⟩
    rw [← hi, hclass i]
  have hres : ∀ r ∈ resolveDupes (st.provisionalRows sim),
      r = ⟨"UNMATCHED", none, none⟩ := by
    intro r hr
    rcases List.mem_map.mp hr with ⟨i, hmem, hfi⟩
    have hilt : i < (st.provisionalRows sim).length := List.mem_range.mp hmem
    have hgd : (st.provisionalRows sim).getD i default = ⟨"UNMATCHED", none, none⟩ := by
      rw [List.getD_eq_getElem?_getD, List.getElem?_eq_getElem hilt]
      exact hprov _ (List.getElem_mem hilt)
    have hnd : i ∉ get_column_dupes ((st.provisionalRows sim).map (fun r => r.row_index)) := by
      intro hd
      rcases (mem_get_column_dupes.mp hd).2 with ⟨v, hv, _⟩
      rw [getD_map_of_lt _ hilt default none, hgd] at hv
      exact Option.noConfusion hv
    rw [← hfi, if_neg hnd, hgd]
  constructor
  · exact hres
  · have hscores : (st.provisionalRows sim).filterMap (fun r => r.match_score) = [] :=
      List.filterMap_eq_nil_iff.mpr (fun r hr => by rw [hprov r hr])
    have hcount : (resolveDupes (st.provisionalRows sim)).countP
        (fun r => r.match_status == "MATCHED") = 0 :=
      List.countP_eq_zero.mpr (fun r hr => by rw [hres r hr]; decide)
    show (st.matchAll sim).2 = ⟨0, 0, -1, -1⟩
    simp only [PandasMatcher.matchAll, hscores, hcount]
    norm_num

/-- Witness for C9 at a state with a zero-row reference table. -/
theorem empty_reference_all_unmatched_witness :
    exStEmptyFrom.df_from.rows = [] ∧
      ((∀ r ∈ (exStEmptyFrom.matchAll exSim).1, r = ⟨"UNMATCHED", none, none⟩) ∧
        (exStEmptyFrom.matchAll exSim).2 = ⟨0, 0, -1, -1⟩) :=
  ⟨rfl, empty_reference_all_unmatched exSim exStEmptyFrom rfl⟩

/-- C8 counterexample: `match` defines and raises no typed error on
zero-row inputs.  With a zero-row target table it completes and returns
an empty result table with the sentinel summary, and with a zero-row
reference table it completes with the row classified `UNMATCHED` — in
both cases a result is committed instead of failing before the loop. -/
theorem empty_input_no_typed_error :
    exStEmptyTo.df_to.rows = [] ∧
      exStEmptyTo.matchAll exSim = ([], ⟨0, 0, -1, -1⟩) ∧
      exStEmptyFrom.df_from.rows = [] ∧
      (exStEmptyFrom.matchAll exSim).1 = [⟨"UNMATCHED", none, none⟩] := by
  refine ⟨rfl, ?_, rfl, ?_⟩
  · decide
  · decide

/-- C8 (amended): `match` performs no empty-input check: with a zero-row
target table it completes normally, committing an empty result table and
the sentinel summary (the zero row count reaches the division inside
`adjusted_uniqueness` instead of being rejected first). -/
theorem empty_target_completes (sim : String → String → ℚ) (st : PandasMatcher)
    (h : st.df_to.rows = []) :
    st.matchAll sim = ([], ⟨0, 0, -1, -1⟩) := by
  have hprov : st.provisionalRows sim = [] := by
    rw [PandasMatcher.provisionalRows, h]
    rfl
  simp only [PandasMatcher.matchAll, hprov]
  norm_num [resolveDupes, get_column_dupes]

/-- Witness for C8 (amended) at a state with a zero-row target table. -/
theorem empty_target_completes_witness :
    exStEmptyTo.df_to.rows = [] ∧ exStEmptyTo.matchAll exSim = ([], ⟨0, 0, -1, -1⟩) :=
  ⟨rfl, empty_target_completes exSim exStEmptyTo rfl⟩

end VsLib
